import Mathlib

/-!
Verification of the parametric 3D curve library (`src/main.cpp`).

The C++ code is templated over a scalar type `T` and instantiated at
`T = double` in the demonstration `main`.  The shallow embedding models the
scalar type `double` by the real numbers `ℝ` for the geometric evaluators
(`calculate` / `derivative`), and by the rationals `ℚ` for the string
formatting of `vector3d` (where the observable output is a decimal string
and exact decimal arithmetic is what the printed digits reflect).

Class statics and inheritance are modelled structurally:
`ellipse3d` / `helix3d` are structures holding exactly the C++ data members;
`circle3d extends ellipse3d` mirrors `class circle3d : public ellipse3d`
(it adds no data member and no overriding method, only constructors that
set `a = b = r`); the abstract base `curve3d` with virtual dispatch is
modelled by the inductive `curve3dPtr`, the dynamic type of a
`shared_ptr<curve3d<double>>` in the demo collection.
-/

/-- `vector3d<T>` from `src/main.cpp`: three public components `x`, `y`, `z`. -/
@[ext]
structure vector3d (T : Type) where
  x : T
  y : T
  z : T
deriving DecidableEq

/-- `ellipse3d<double>`: data members `position` (inherited from `curve3d`),
semi-axes `a` and `b`. -/
structure ellipse3d where
  position : vector3d ℝ
  a : ℝ
  b : ℝ

/-- The 5-argument constructor `ellipse3d(x, y, z, a, b)`. -/
def ellipse3d.ofXYZ (x y z a b : ℝ) : ellipse3d :=
  ⟨⟨x, y, z⟩, a, b⟩

/-- The 4-argument constructor `ellipse3d(x, y, a, b)`, which delegates to the
5-argument one with `z = static_cast<T>(0)`. -/
def ellipse3d.ofXY (x y a b : ℝ) : ellipse3d :=
  ellipse3d.ofXYZ x y 0 a b

/-- `ellipse3d::calculate(angle)`:
`(position.x + a*cos(angle), position.y + b*sin(angle), position.z)`. -/
noncomputable def ellipse3d.calculate (e : ellipse3d) (angle : ℝ) : vector3d ℝ :=
  ⟨e.position.x + e.a * Real.cos angle,
   e.position.y + e.b * Real.sin angle,
   e.position.z⟩

/-- `ellipse3d::derivative(angle)`: `(a * -sin(angle), b * cos(angle), 0)`. -/
noncomputable def ellipse3d.derivative (e : ellipse3d) (angle : ℝ) : vector3d ℝ :=
  ⟨e.a * -Real.sin angle,
   e.b * Real.cos angle,
   0⟩

/-- `circle3d<double> : public ellipse3d<double>`: no new data members and no
overridden methods; evaluation is inherited from `ellipse3d`. -/
structure circle3d extends ellipse3d

/-- The 4-argument constructor `circle3d(x, y, z, r)`, which constructs the
base `ellipse3d(x, y, z, r, r)`. -/
def circle3d.ofXYZ (x y z r : ℝ) : circle3d :=
  ⟨ellipse3d.ofXYZ x y z r r⟩

/-- The 3-argument constructor `circle3d(x, y, r)`, delegating to
`circle3d(x, y, 0, r)`. -/
def circle3d.ofXY (x y r : ℝ) : circle3d :=
  circle3d.ofXYZ x y 0 r

/-- `circle3d` inherits `calculate` unchanged from `ellipse3d`. -/
noncomputable def circle3d.calculate (c : circle3d) (angle : ℝ) : vector3d ℝ :=
  c.toellipse3d.calculate angle

/-- `circle3d` inherits `derivative` unchanged from `ellipse3d`. -/
noncomputable def circle3d.derivative (c : circle3d) (angle : ℝ) : vector3d ℝ :=
  c.toellipse3d.derivative angle

/-- `helix3d<double>`: data members `position` (inherited), `a`, `b`, `step`,
`angle_start`. -/
structure helix3d where
  position : vector3d ℝ
  a : ℝ
  b : ℝ
  step : ℝ
  angle_start : ℝ

/-- The 7-argument constructor `helix3d(x, y, z, a, b, step, angle_start)`. -/
def helix3d.ofFull (x y z a b step angle_start : ℝ) : helix3d :=
  ⟨⟨x, y, z⟩, a, b, step, angle_start⟩

/-- The 5-argument constructor `helix3d(x, y, z, r, step)`, which delegates to
the full constructor with `a = b = r` and `angle_start = 0`. -/
def helix3d.ofR (x y z r step : ℝ) : helix3d :=
  helix3d.ofFull x y z r r step 0

/-- `helix3d::calculate(angle)`:
`(position.x + a*cos(angle), position.y + b*sin(angle),
  position.z + (angle_start + angle)/(M_PI * 2) * step)`. -/
noncomputable def helix3d.calculate (h : helix3d) (angle : ℝ) : vector3d ℝ :=
  ⟨h.position.x + h.a * Real.cos angle,
   h.position.y + h.b * Real.sin angle,
   h.position.z + (h.angle_start + angle) / (Real.pi * 2) * h.step⟩

/-- `helix3d::derivative(angle)`:
`(a * -sin(angle), b * cos(angle), step / (M_PI * 2))`. -/
noncomputable def helix3d.derivative (h : helix3d) (angle : ℝ) : vector3d ℝ :=
  ⟨h.a * -Real.sin angle,
   h.b * Real.cos angle,
   h.step / (Real.pi * 2)⟩

/-- Left-pad a digit string with zeros to the given length, as the
fixed-notation fractional part is printed with exactly `precision` digits. -/
def padZeros (len : Nat) (s : String) : String :=
  String.mk (List.replicate (len - s.length) '0') ++ s

/-- Round the fraction `a / d` (`d > 0`) to the nearest natural number, ties
to even — the rounding the C/C++ formatted-output routines apply to the value
when shortening it to the requested number of digits. -/
def rndHalfEven (a d : Nat) : Nat :=
  let p := a / d
  let r := a % d
  if 2 * r < d then p
  else if d < 2 * r then p + 1
  else if p % 2 = 0 then p else p + 1

/-- `std::fixed` output with `setprecision(prec)` of a scalar value, on the
exact rational model of the value: sign, then `|q| * 10 ^ prec` rounded half
to even, printed as integer part, point, and exactly `prec` fractional
digits (`q.num.natAbs / q.den` is `|q|` as a fraction in lowest terms). -/
def fmtFixed (prec : Nat) (q : ℚ) : String :=
  let n : Nat := rndHalfEven (q.num.natAbs * 10 ^ prec) q.den
  let sign := if q.num < 0 then "-" else ""
  if prec = 0 then sign ++ toString n
  else
    sign ++ toString (n / 10 ^ prec) ++ "." ++
      padZeros prec (toString (n % 10 ^ prec))

/-- Strip trailing fractional zeros, and then a trailing decimal point, from
a fixed-notation numeral — the final step of the default (`%g`-style) double
formatting. -/
def stripTrailingZeros (s : String) : String :=
  let l := s.data.reverse.dropWhile (fun c => c = '0')
  let l := if l.head? = some '.' then l.tail else l
  String.mk l.reverse

/-- The decimal exponent `⌊log10 |q|⌋` of a nonzero rational, computed on the
numerator `m = q.num.natAbs` and denominator `d = q.den`: for `|q| ≥ 1` it is
one less than the decimal digit count of `⌊|q|⌋ = m / d`; for `|q| < 1` it is
minus the least `f` with `m * 10 ^ f ≥ d`, that is minus the digit count of
`⌈d / m⌉ - 1`. -/
def decExp (q : ℚ) : ℤ :=
  let m := q.num.natAbs
  let d := q.den
  if d ≤ m then ((toString (m / d)).length - 1 : Nat)
  else -(((toString ((d + m - 1) / m - 1)).length : Nat) : ℤ)

/-- Default stream output of a `double` (stream defaults: `defaultfloat`,
`precision() == 6`), on the exact rational model of the value: round to six
significant digits, print in fixed notation, strip trailing zeros.  This is
the `%g` algorithm in the regime where it selects fixed notation (decimal
exponent in `[-4, 6)` and rounding not bumping the exponent), which covers
every value this development evaluates the formatter on. -/
def fmtDefault (q : ℚ) : String :=
  if q.num = 0 then "0"
  else stripTrailingZeros (fmtFixed (5 - decExp q).toNat q)

/-- `vector3d::str()`: a fresh `ostringstream` with `std::fixed` and
`setprecision(2)`, receiving `"\x7b" << x << "," << y << "," << z << "\x7d"`. -/
def vector3d.str (v : vector3d ℚ) : String :=
  "\x7b" ++ fmtFixed 2 v.x ++ "," ++ fmtFixed 2 v.y ++ "," ++
    fmtFixed 2 v.z ++ "\x7d"

/-- `operator<<(std::ostream&, const vector3d&)`: inserts
`"\x7b" << x << "," << y << "," << z << "\x7d"` into the stream with the
stream's current formatting state — in `main`, `std::cout` with its
defaults (`defaultfloat`, precision 6), not the 2-decimal fixed form. -/
def vector3d.ostreamForm (v : vector3d ℚ) : String :=
  "\x7b" ++ fmtDefault v.x ++ "," ++ fmtDefault v.y ++ "," ++
    fmtDefault v.z ++ "\x7d"

/-- Claim C1: for every origin `(ox, oy, oz)`, semi-axes `a`, `b` (with no
validation: the equations hold for all real `a`, `b`, including zero and
negative values) and every angle `θ`,
`ellipse3d::calculate(θ) = (ox + a·cos θ, oy + b·sin θ, oz)` and
`ellipse3d::derivative(θ) = (−a·sin θ, b·cos θ, 0)`. -/
theorem C1_ellipse_eval (ox oy oz a b θ : ℝ) :
    (ellipse3d.ofXYZ ox oy oz a b).calculate θ =
      ⟨ox + a * Real.cos θ, oy + b * Real.sin θ, oz⟩ ∧
    (ellipse3d.ofXYZ ox oy oz a b).derivative θ =
      ⟨-a * Real.sin θ, b * Real.cos θ, 0⟩ := by
  refine ⟨vector3d.ext ?_ ?_ ?_, vector3d.ext ?_ ?_ ?_⟩ <;>
      simp only [ellipse3d.ofXYZ, ellipse3d.calculate, ellipse3d.derivative] <;>
    ring

/-- Claim C2: for every origin, semi-axes `a`, `b`, pitch `step`, phase
`angle_start` and every angle `θ`,
`helix3d::calculate(θ) = (ox + a·cos θ, oy + b·sin θ,
oz + (angle_start + θ)/(2π)·step)` and
`helix3d::derivative(θ) = (−a·sin θ, b·cos θ, step/(2π))`; in particular the
derivative's Z component equals `step/(2π)` exactly, for every angle. -/
theorem C2_helix_eval (ox oy oz a b step angle_start θ : ℝ) :
    (helix3d.ofFull ox oy oz a b step angle_start).calculate θ =
      ⟨ox + a * Real.cos θ, oy + b * Real.sin θ,
       oz + (angle_start + θ) / (2 * Real.pi) * step⟩ ∧
    (helix3d.ofFull ox oy oz a b step angle_start).derivative θ =
      ⟨-a * Real.sin θ, b * Real.cos θ, step / (2 * Real.pi)⟩ ∧
    ((helix3d.ofFull ox oy oz a b step angle_start).derivative θ).z =
      step / (2 * Real.pi) := by
  refine ⟨vector3d.ext ?_ ?_ ?_, vector3d.ext ?_ ?_ ?_, ?_⟩ <;>
      simp only [helix3d.ofFull, helix3d.calculate, helix3d.derivative] <;>
    ring

/-- Claim C3: for every ellipse (any origin, any semi-axes) and every angle,
the Z component of `ellipse3d::calculate` equals `position.z` exactly: the
evaluated curve is planar. -/
theorem C3_ellipse_planar (e : ellipse3d) (θ : ℝ) :
    (e.calculate θ).z = e.position.z :=
  rfl

/-- Claim C4: a `circle3d` built from an anchor and radius `r` is internally
the `ellipse3d` with `a = b = r` (for both the 3D- and the 2D-anchor
constructor), and its inherited `calculate` / `derivative` agree with that
ellipse at every angle. -/
theorem C4_circle_is_ellipse (x y z r θ : ℝ) :
    (circle3d.ofXYZ x y z r).toellipse3d = ellipse3d.ofXYZ x y z r r ∧
    (circle3d.ofXY x y r).toellipse3d = ellipse3d.ofXYZ x y 0 r r ∧
    (circle3d.ofXYZ x y z r).calculate θ =
      (ellipse3d.ofXYZ x y z r r).calculate θ ∧
    (circle3d.ofXYZ x y z r).derivative θ =
      (ellipse3d.ofXYZ x y z r r).derivative θ :=
  ⟨rfl, rfl, rfl, rfl⟩

/-- Claim C5: the Z component of `helix3d::calculate` is strictly increasing
in the angle when `step > 0`, and monotone non-decreasing when `step ≥ 0`. -/
theorem C5_helix_z_monotone (h : helix3d) :
    (0 < h.step → ∀ θ₁ θ₂ : ℝ, θ₁ < θ₂ →
      (h.calculate θ₁).z < (h.calculate θ₂).z) ∧
    (0 ≤ h.step → ∀ θ₁ θ₂ : ℝ, θ₁ ≤ θ₂ →
      (h.calculate θ₁).z ≤ (h.calculate θ₂).z) := by
  have hπ : (0 : ℝ) < Real.pi * 2 := by positivity
  constructor
  · intro hstep θ₁ θ₂ hθ
    have h1 : (h.angle_start + θ₁) / (Real.pi * 2) <
        (h.angle_start + θ₂) / (Real.pi * 2) :=
      div_lt_div_of_pos_right (by linarith) hπ
    have h2 := mul_lt_mul_of_pos_right h1 hstep
    simpa [helix3d.calculate] using add_lt_add_left h2 h.position.z
  · intro hstep θ₁ θ₂ hθ
    have h1 : (h.angle_start + θ₁) / (Real.pi * 2) ≤
        (h.angle_start + θ₂) / (Real.pi * 2) :=
      div_le_div_of_nonneg_right (by linarith) hπ.le
    have h2 := mul_le_mul_of_nonneg_right h1 hstep
    simpa [helix3d.calculate] using add_le_add_left h2 h.position.z

/-- Witness for C5 at a concrete helix and concrete angles. -/
theorem C5_helix_z_monotone_witness :
    ((helix3d.ofR 0 0 0 1 1).calculate 0).z <
      ((helix3d.ofR 0 0 0 1 1).calculate 1).z ∧
    ((helix3d.ofR 0 0 0 1 1).calculate 0).z ≤
      ((helix3d.ofR 0 0 0 1 1).calculate 1).z :=
  ⟨(C5_helix_z_monotone (helix3d.ofR 0 0 0 1 1)).1 (by norm_num [helix3d.ofR,
      helix3d.ofFull]) 0 1 (by norm_num),
   (C5_helix_z_monotone (helix3d.ofR 0 0 0 1 1)).2 (by norm_num [helix3d.ofR,
      helix3d.ofFull]) 0 1 (by norm_num)⟩

/-- Claim C6: for every ellipse and every angle, `calculate(θ + 2π)` equals
`calculate(θ)` — exact equality in the real model, hence in particular within
any floating-point tolerance; the angle parameter is unbounded. -/
theorem C6_ellipse_periodic (e : ellipse3d) (θ : ℝ) :
    e.calculate (θ + 2 * Real.pi) = e.calculate θ := by
  simp [ellipse3d.calculate, Real.cos_add_two_pi, Real.sin_add_two_pi]

/-- Claim C7 counterexample: the helix built by the single-radius constructor
with origin `(0,0,0)`, `r = 1`, `step = 2π` evaluated at `θ = 2π` yields the
point `(1, 0, 2π)`, whose Z component `2π` exceeds `6` and in particular is
not `1` (so the point is not `(1, 0, 1)`, not even approximately). -/
theorem C7_counterexample :
    (helix3d.ofR 0 0 0 1 (2 * Real.pi)).calculate (2 * Real.pi) =
      ⟨1, 0, 2 * Real.pi⟩ ∧
    (6 : ℝ) < 2 * Real.pi ∧ (2 * Real.pi : ℝ) ≠ 1 := by
  have hπ := Real.pi_ne_zero
  refine ⟨vector3d.ext ?_ ?_ ?_, ?_, ?_⟩
  · simp [helix3d.ofR, helix3d.ofFull, helix3d.calculate, Real.cos_two_pi]
  · simp [helix3d.ofR, helix3d.ofFull, helix3d.calculate, Real.sin_two_pi]
  · simp only [helix3d.ofR, helix3d.ofFull, helix3d.calculate]
    field_simp
    ring
  · nlinarith [Real.pi_gt_three]
  · have h6 : (6 : ℝ) < 2 * Real.pi := by nlinarith [Real.pi_gt_three]
    intro h
    rw [h] at h6
    norm_num at h6

/-- Claim C7, amended: the single-radius constructor `helix3d(x, y, z, r,
step)` sets `a = b = r` and `angle_start = 0`; the helix with origin
`(0,0,0)`, `r = 1`, `step = 2π`, evaluated at `θ = 2π`, yields the point
`(1, 0, 2π)` — one full turn advances Z by exactly `step` (here `2π`),
as it does for every helix and every starting angle. -/
theorem C7_helix_ctor_amended :
    (∀ x y z r step : ℝ,
      helix3d.ofR x y z r step = ⟨⟨x, y, z⟩, r, r, step, 0⟩) ∧
    (helix3d.ofR 0 0 0 1 (2 * Real.pi)).calculate (2 * Real.pi) =
      ⟨1, 0, 2 * Real.pi⟩ ∧
    (∀ (h : helix3d) (θ : ℝ),
      (h.calculate (θ + 2 * Real.pi)).z = (h.calculate θ).z + h.step) := by
  have hπ := Real.pi_ne_zero
  refine ⟨fun x y z r step => rfl, ?_, fun h θ => ?_⟩
  · refine vector3d.ext ?_ ?_ ?_
    · simp [helix3d.ofR, helix3d.ofFull, helix3d.calculate, Real.cos_two_pi]
    · simp [helix3d.ofR, helix3d.ofFull, helix3d.calculate, Real.sin_two_pi]
    · simp only [helix3d.ofR, helix3d.ofFull, helix3d.calculate]
      field_simp
      ring
  · simp only [helix3d.calculate]
    field_simp
    ring

/-- Claim C8 counterexample: the vector `(1, 1, 1)` printed through the
program's stream-insertion operator (the form `main` actually prints) renders
as `"\x7b1,1,1\x7d"`, not as the 2-decimal form `"\x7b1.00,1.00,1.00\x7d"`
produced by `str()`: the 2-decimal rule is not applied to every printed
`vector3d`. -/
theorem C8_counterexample :
    vector3d.ostreamForm ⟨1, 1, 1⟩ = "\x7b1,1,1\x7d" ∧
    vector3d.str ⟨1, 1, 1⟩ = "\x7b1.00,1.00,1.00\x7d" ∧
    vector3d.ostreamForm ⟨1, 1, 1⟩ ≠ vector3d.str ⟨1, 1, 1⟩ := by
  refine ⟨?_, ?_, ?_⟩ <;> decide

/-- Claim C8, amended: `vector3d::str()` renders the bracketed triple with
each coordinate in fixed 2-decimal form — `(1.005, -2, 0)` gives
`"\x7b1.00,-2.00,0.00\x7d"` — but the stream-insertion operator, the path by
which `main` prints every `vector3d`, renders coordinates with the stream's
default formatting (6 significant digits, trailing zeros stripped), so the
2-decimal rule is not the only format and is not applied to every printed
`vector3d`. -/
theorem C8_display_amended :
    vector3d.str ⟨mkRat 201 200, -2, 0⟩ = "\x7b1.00,-2.00,0.00\x7d" ∧
    vector3d.ostreamForm ⟨mkRat 201 200, -2, 0⟩ = "\x7b1.005,-2,0\x7d" ∧
    vector3d.ostreamForm ⟨mkRat 201 200, -2, 0⟩ ≠ vector3d.str ⟨mkRat 201 200, -2, 0⟩ := by
  refine ⟨?_, ?_, ?_⟩ <;> decide

/-- The dynamic type of a `shared_ptr<curve3d<double>>` in the demo
collection of `main`: the pointee is, most-derived, an `ellipse3d`, a
`circle3d` or a `helix3d`. -/
inductive curve3dPtr where
  | ofEllipse (e : ellipse3d)
  | ofCircle (c : circle3d)
  | ofHelix (h : helix3d)

/-- Virtual dispatch of `calculate` through the `curve3d` base pointer. -/
noncomputable def curve3dPtr.calculate : curve3dPtr → ℝ → vector3d ℝ
  | .ofEllipse e, θ => e.calculate θ
  | .ofCircle c, θ => c.calculate θ
  | .ofHelix h, θ => h.calculate θ

/-- Virtual dispatch of `derivative` through the `curve3d` base pointer. -/
noncomputable def curve3dPtr.derivative : curve3dPtr → ℝ → vector3d ℝ
  | .ofEllipse e, θ => e.derivative θ
  | .ofCircle c, θ => c.derivative θ
  | .ofHelix h, θ => h.derivative θ

/-- `dynamic_cast<circle3d<double>*>`: succeeds exactly when the most-derived
dynamic type is `circle3d` (an `ellipse3d` that merely has equal axes is not
a `circle3d`). -/
def curve3dPtr.dynCastCircle : curve3dPtr → Option circle3d
  | .ofCircle c => some c
  | _ => none

/-- One iteration of the generation loop in `main`: `i % 3` selects the
variant — `ellipse3d(dis, dis, dis, dis)` for `0`, `circle3d(dis, dis, dis)`
for `1`, `helix3d(dis, dis, dis, dis, dis)` for `2`.  The `dis(gen)` draws
are modelled by an arbitrary function `rand` from draw index to value (C++
does not even fix the evaluation order of the constructor arguments, and no
claim depends on the drawn values). -/
def mainCurve (rand : ℕ → ℝ) (i : ℕ) : curve3dPtr :=
  if i % 3 = 0 then
    .ofEllipse (ellipse3d.ofXY (rand (5 * i)) (rand (5 * i + 1))
      (rand (5 * i + 2)) (rand (5 * i + 3)))
  else if i % 3 = 1 then
    .ofCircle (circle3d.ofXY (rand (5 * i)) (rand (5 * i + 1))
      (rand (5 * i + 2)))
  else
    .ofHelix (helix3d.ofR (rand (5 * i)) (rand (5 * i + 1))
      (rand (5 * i + 2)) (rand (5 * i + 3)) (rand (5 * i + 4)))

/-- The collection built by `for(size_t i=0; i<100; i++)` in `main`. -/
def mainCurves (rand : ℕ → ℝ) : List curve3dPtr :=
  (List.range 100).map (mainCurve rand)

/-- The filtering loop of `main`: `dynamic_cast` each element to
`circle3d*`, keep the hits. -/
def circleContainer (cs : List curve3dPtr) : List circle3d :=
  cs.filterMap curve3dPtr.dynCastCircle

/-- Insert a circle into a list sorted ascending by the comparator of
`main`, `a->a < b->a`. -/
noncomputable def insertByA (c : circle3d) : List circle3d → List circle3d
  | [] => [c]
  | d :: t =>
    if c.toellipse3d.a < d.toellipse3d.a then c :: d :: t
    else d :: insertByA c t

/-- The model of `std::sort(circleContainer.begin(), circleContainer.end(),
a->a < b->a)` as an insertion sort (the C++ sorting algorithm is
unspecified; the claims use only that sorting preserves length and
emptiness). -/
noncomputable def sortByA : List circle3d → List circle3d
  | [] => []
  | c :: t => insertByA c (sortByA t)

/-- The query of `main`: sort the filtered circles and read
`circleContainer.front()->a` and `circleContainer.back()->a`.  The C++ calls
`front()`/`back()` with no emptiness check; on an empty container those are
out-of-bounds reads (undefined behavior), modelled by `none`.  No error
object of any kind is produced by the program. -/
noncomputable def circleFirstLast (cs : List curve3dPtr) : Option (ℝ × ℝ) :=
  match sortByA (circleContainer cs) with
  | [] => none
  | c :: t =>
    some (c.toellipse3d.a,
      ((c :: t).getLast (List.cons_ne_nil c t)).toellipse3d.a)

/-- Modelled from the spec: the repository contains no
`EmptyCollectionError` (nor any other surfaced error); this definition
follows the spec's words in its error-handling section — the same
first/last query, but failing explicitly with an `EmptyCollectionError`
when the filter yields zero matches. -/
noncomputable def circleFirstLastChecked (cs : List curve3dPtr) :
    Except String (ℝ × ℝ) :=
  match sortByA (circleContainer cs) with
  | [] => .error "EmptyCollectionError"
  | c :: t =>
    .ok (c.toellipse3d.a,
      ((c :: t).getLast (List.cons_ne_nil c t)).toellipse3d.a)

lemma length_insertByA (c : circle3d) (l : List circle3d) :
    (insertByA c l).length = l.length + 1 := by
  induction l with
  | nil => rfl
  | cons d t ih =>
    simp only [insertByA]
    split
    · simp
    · simp [ih]

lemma length_sortByA (l : List circle3d) :
    (sortByA l).length = l.length := by
  induction l with
  | nil => rfl
  | cons c t ih => simp [sortByA, length_insertByA, ih]

lemma sortByA_eq_nil_iff (l : List circle3d) :
    sortByA l = [] ↔ l = [] := by
  constructor
  · intro h
    have := length_sortByA l
    rw [h] at this
    exact List.length_eq_zero.mp this.symm
  · intro h
    rw [h]
    rfl

lemma circleFirstLast_eq_none_iff (cs : List curve3dPtr) :
    circleFirstLast cs = none ↔ circleContainer cs = [] := by
  rw [circleFirstLast]
  rcases h : sortByA (circleContainer cs) with _ | ⟨c, t⟩
  · simp [(sortByA_eq_nil_iff _).mp h]
  · have : circleContainer cs ≠ [] := by
      intro hc
      rw [hc] at h
      exact absurd h.symm (List.cons_ne_nil c t)
    simp [this]

lemma circleFirstLast_some_iff_checked (cs : List curve3dPtr) (p : ℝ × ℝ) :
    circleFirstLast cs = some p ↔ circleFirstLastChecked cs = .ok p := by
  rw [circleFirstLast, circleFirstLastChecked]
  rcases h : sortByA (circleContainer cs) with _ | ⟨c, t⟩ <;> simp

lemma checked_error_iff_empty (cs : List curve3dPtr) :
    circleFirstLastChecked cs = .error "EmptyCollectionError" ↔
      circleContainer cs = [] := by
  rw [circleFirstLastChecked]
  rcases h : sortByA (circleContainer cs) with _ | ⟨c, t⟩
  · simp [(sortByA_eq_nil_iff _).mp h]
  · have : circleContainer cs ≠ [] := by
      intro hc
      rw [hc] at h
      exact absurd h.symm (List.cons_ne_nil c t)
    simp [this]

lemma circleContainer_map_length (rand : ℕ → ℝ) (l : List ℕ) :
    (circleContainer (l.map (mainCurve rand))).length =
      (l.filter (fun i => i % 3 == 1)).length := by
  induction l with
  | nil => rfl
  | cons i t ih =>
    have h3 : i % 3 = 0 ∨ i % 3 = 1 ∨ i % 3 = 2 := by omega
    simp only [circleContainer, List.filterMap_map] at ih
    rcases h3 with h | h | h <;>
      simp [circleContainer, mainCurve, h, curve3dPtr.dynCastCircle,
        List.filterMap_cons, List.filter_cons, List.filterMap_map, ih]

/-- Claim C9 counterexample: on a collection whose circle filter yields zero
matches (here a single helix), the program's first/last query performs the
unchecked `front()`/`back()` access — an out-of-bounds read, `none` in the
model, with no error surfaced — whereas the spec-modelled checked query
fails explicitly with `EmptyCollectionError`; the program's query is not the
checked one. -/
theorem C9_counterexample :
    circleFirstLast [curve3dPtr.ofHelix (helix3d.ofR 0 0 0 1 1)] = none ∧
    circleFirstLastChecked [curve3dPtr.ofHelix (helix3d.ofR 0 0 0 1 1)] =
      Except.error "EmptyCollectionError" := by
  constructor <;>
    simp [circleFirstLast, circleFirstLastChecked, circleContainer,
      curve3dPtr.dynCastCircle, sortByA]

/-- Claim C9, amended: the first/last-after-filter-and-sort operation in
`main` performs no emptiness check and defines no `EmptyCollectionError`:
when the circle filter yields zero matches it reads `front()`/`back()` out
of bounds (modelled `none`) instead of failing explicitly; it produces a
value exactly when the filter finds at least one circle, and on those inputs
it agrees with the spec's checked variant, which is the only place an
explicit `EmptyCollectionError` exists. -/
theorem C9_unchecked_first_last (cs : List curve3dPtr) :
    (circleFirstLast cs = none ↔ circleContainer cs = []) ∧
    (∀ p : ℝ × ℝ, circleFirstLast cs = some p ↔
      circleFirstLastChecked cs = Except.ok p) ∧
    (circleFirstLastChecked cs = Except.error "EmptyCollectionError" ↔
      circleContainer cs = []) :=
  ⟨circleFirstLast_eq_none_iff cs,
   fun p => circleFirstLast_some_iff_checked cs p,
   checked_error_iff_empty cs⟩

/-- Witness for C9 at a concrete one-circle collection. -/
theorem C9_unchecked_first_last_witness :
    circleFirstLast [curve3dPtr.ofCircle (circle3d.ofXYZ 0 0 0 5)] =
      some (5, 5) ∧
    circleFirstLastChecked [curve3dPtr.ofCircle (circle3d.ofXYZ 0 0 0 5)] =
      Except.ok (5, 5) := by
  have h1 : circleFirstLast [curve3dPtr.ofCircle (circle3d.ofXYZ 0 0 0 5)] =
      some (5, 5) := by
    simp [circleFirstLast, circleContainer, curve3dPtr.dynCastCircle,
      sortByA, insertByA, circle3d.ofXYZ, ellipse3d.ofXYZ]
  exact ⟨h1, ((C9_unchecked_first_last _).2.1 (5, 5)).mp h1⟩

/-- Claim C10: for every draw function, the generated collection holds 100
curves; each element at an index `i` with `i % 3 = 1` is dynamically a
`circle3d` (the `dynamic_cast` hits); the filtered circle container holds
exactly 33 circles and is never empty, so the unchecked `front()`/`back()`
query returns a value rather than reading an empty container. -/
theorem C10_main_generation (rand : ℕ → ℝ) :
    (mainCurves rand).length = 100 ∧
    (∀ i, ∀ h : i < (mainCurves rand).length, i % 3 = 1 →
      (((mainCurves rand).get ⟨i, h⟩).dynCastCircle).isSome) ∧
    (circleContainer (mainCurves rand)).length = 33 ∧
    circleContainer (mainCurves rand) ≠ [] ∧
    (circleFirstLast (mainCurves rand)).isSome := by
  have h33 : (circleContainer (mainCurves rand)).length = 33 := by
    rw [mainCurves, circleContainer_map_length]
    decide
  have hne : circleContainer (mainCurves rand) ≠ [] := by
    intro h
    rw [h] at h33
    simp at h33
  refine ⟨by simp [mainCurves], ?_, h33, hne, ?_⟩
  · intro i h hi
    have hget : (mainCurves rand).get ⟨i, h⟩ = mainCurve rand i := by
      simp [mainCurves]
    rw [hget, mainCurve]
    simp [hi, curve3dPtr.dynCastCircle]
  · rcases ho : circleFirstLast (mainCurves rand) with _ | p
    · exact absurd ((circleFirstLast_eq_none_iff _).mp ho) hne
    · rfl

/-- Witness for C10 at a concrete draw function and index. -/
theorem C10_main_generation_witness :
    (((mainCurves (fun _ => (0 : ℝ))).get
        ⟨1, by norm_num [mainCurves]⟩).dynCastCircle).isSome ∧
    (circleContainer (mainCurves (fun _ => (0 : ℝ)))).length = 33 :=
  ⟨(C10_main_generation (fun _ => 0)).2.1 1 (by norm_num [mainCurves]) rfl,
   (C10_main_generation (fun _ => 0)).2.2.1⟩
